import Mathlib

/-!
Verification of the directory store in `main.go` of the go-annuaire
repository, against its natural-language specification.

Modelling choices (shallow embedding):

* Go strings are modelled as `List Char`, i.e. sequences of Unicode code
  points.  `strings.ToLower` is modelled as a character-wise map that
  lowercases the ASCII range and is the identity elsewhere (Go also folds
  non-ASCII letters; every claim here is insensitive to that difference,
  and all concrete inputs are ASCII).  `strings.TrimSpace` is modelled
  with the exact White_Space code-point set used by `unicode.IsSpace`.
* The Go methods mutate their receiver in place; here each operation
  returns the pair of its error result and the directory after the call,
  so that what the Go code leaves in memory on an error path is visible.
* Go error values produced with `fmt.Errorf` are distinguished by their
  message; they are modelled by the inductive `OpError`, one constructor
  per distinct message in `main.go`.
* Persistence is modelled at the level of the JSON document tree: `Json`
  is the abstract syntax of JSON values, `sauvegarderAnnuaire` produces
  the tree that `json.MarshalIndent` serialises, and `chargerAnnuaire`
  consumes an `Option Json` standing for the parsed contents of
  `annuaire.json` (`none` = the file does not exist).  The decoder
  follows the relevant behaviour of `json.Unmarshal`: struct keys are
  matched case-insensitively, unknown keys are ignored, a JSON `null`
  leaves the target value unchanged, and a type mismatch is an error.
  Byte-level concerns (string escaping, indentation, invalid UTF-8) are
  below the granularity of this model.
-/

/-- Model of a Go string: a sequence of Unicode code points. -/
abbrev GoString := List Char

/-- Models `unicode.IsSpace` from the Go standard library: membership of
the code point in Unicode White_Space (the exact set Go uses). -/
def isSpace (c : Char) : Bool :=
  decide ((9 ≤ c.toNat ∧ c.toNat ≤ 13) ∨ c.toNat = 32 ∨ c.toNat = 133 ∨
    c.toNat = 160 ∨ c.toNat = 5760 ∨ (8192 ≤ c.toNat ∧ c.toNat ≤ 8202) ∨
    c.toNat = 8232 ∨ c.toNat = 8233 ∨ c.toNat = 8239 ∨ c.toNat = 8287 ∨
    c.toNat = 12288)

/-- Models `strings.ToLower`, ASCII range only (identity elsewhere);
`Char.toLower` lowercases exactly the code points 65-90. -/
def sToLower (s : GoString) : GoString := s.map Char.toLower

/-- Models `strings.TrimSpace`: drop White_Space code points from both
ends of the string. -/
def trimSpace (s : GoString) : GoString :=
  ((s.dropWhile isSpace).reverse.dropWhile isSpace).reverse

/-- Model of the Go struct `Contact` (fields `Nom`, `Prenom`, `Tel`). -/
structure Contact where
  nom : GoString
  prenom : GoString
  tel : GoString
deriving DecidableEq

/-- Model of the Go struct `Annuaire`: the ordered collection of
contacts. -/
structure Annuaire where
  contacts : List Contact
deriving DecidableEq

/-- The distinct error values returned by the directory operations in
`main.go`, one constructor per `fmt.Errorf` message. -/
inductive OpError where
  /-- Message: un contact avec le nom donné existe déjà (add). -/
  | duplicate : GoString → OpError
  /-- Message: le nom ne peut pas être vide (add). -/
  | nomVide : OpError
  /-- Message: le numéro de téléphone ne peut pas être vide (add). -/
  | telVide : OpError
  /-- Message: aucun contact trouvé avec le nom donné (delete, update). -/
  | introuvable : GoString → OpError
deriving DecidableEq

/-- Models `rechercherContact`: scan the contacts in order and return the
first whose name equals the query after lowercasing both sides. -/
def rechercherContact (a : Annuaire) (nom : GoString) : Option Contact :=
  a.contacts.find? (fun c => sToLower c.nom == sToLower nom)

/-- Models `ajouterContact`: duplicate check (on the untrimmed argument)
first, then the two emptiness checks, then append the contact with all
three fields trimmed.  Returns the error result together with the
directory the Go method leaves in memory. -/
def ajouterContact (a : Annuaire) (nom prenom tel : GoString) :
    Option OpError × Annuaire :=
  match rechercherContact a nom with
  | some _ => (some (OpError.duplicate nom), a)
  | none =>
    if nom = [] then (some OpError.nomVide, a)
    else if tel = [] then (some OpError.telVide, a)
    else (none, ⟨a.contacts ++ [⟨trimSpace nom, trimSpace prenom, trimSpace tel⟩]⟩)

/-- Helper for `supprimerContact`: remove the first element satisfying
`p`, or `none` when no element does.  This is what the Go loop
`append(a.Contacts[:i], a.Contacts[i+1:]...)` computes at the first
matching index `i`. -/
def removeFirst (p : Contact → Bool) : List Contact → Option (List Contact)
  | [] => none
  | c :: rest =>
    if p c then some rest
    else Option.map (fun l => c :: l) (removeFirst p rest)

/-- Models `supprimerContact`: delete the first contact whose lowered
name equals the lowered query; error when no contact matches. -/
def supprimerContact (a : Annuaire) (nom : GoString) :
    Option OpError × Annuaire :=
  match removeFirst (fun c => sToLower c.nom == sToLower nom) a.contacts with
  | some l => (none, ⟨l⟩)
  | none => (some (OpError.introuvable nom), a)

/-- Helper for `modifierContact`: rewrite the first element satisfying
`p` with `f`, or `none` when no element does.  The Go method mutates
through the pointer returned by `rechercherContact`, which points at the
first match. -/
def updateFirst (p : Contact → Bool) (f : Contact → Contact) :
    List Contact → Option (List Contact)
  | [] => none
  | c :: rest =>
    if p c then some (f c :: rest)
    else Option.map (fun l => c :: l) (updateFirst p f rest)

/-- Models `modifierContact`: find the first contact matching the query
case-insensitively and, for each of the two optional fields, replace it
by the trimmed argument when the argument is non-empty and keep it
otherwise.  Error when no contact matches. -/
def modifierContact (a : Annuaire) (nom nouveauPrenom nouveauTel : GoString) :
    Option OpError × Annuaire :=
  match updateFirst (fun c => sToLower c.nom == sToLower nom)
      (fun c => ⟨c.nom,
        if nouveauPrenom = [] then c.prenom else trimSpace nouveauPrenom,
        if nouveauTel = [] then c.tel else trimSpace nouveauTel⟩)
      a.contacts with
  | some l => (none, ⟨l⟩)
  | none => (some (OpError.introuvable nom), a)

/-- Abstract syntax of JSON documents, the granularity at which the
snapshot file is modelled. -/
inductive Json where
  | null : Json
  | bool : Bool → Json
  | num : Int → Json
  | str : GoString → Json
  | arr : List Json → Json
  | obj : List (GoString × Json) → Json

/-- The JSON object `json.MarshalIndent` produces for one `Contact`
(keys `nom`, `prenom`, `tel`, in struct order). -/
def marshalContact (c : Contact) : Json :=
  Json.obj [(("nom".toList), Json.str c.nom),
            (("prenom".toList), Json.str c.prenom),
            (("tel".toList), Json.str c.tel)]

/-- The JSON object `json.MarshalIndent` produces for an `Annuaire`
(single key `contacts` holding the array of contacts). -/
def marshalAnnuaire (a : Annuaire) : Json :=
  Json.obj [(("contacts".toList), Json.arr (a.contacts.map marshalContact))]

/-- Decode one object entry into a `Contact` being built, the way
`json.Unmarshal` fills a struct: keys are matched case-insensitively
(the three field keys are pairwise distinct even after folding), unknown
keys are ignored, `null` leaves the field unchanged, and a non-string
value for a string field is an error. -/
def setContactField (c : Contact) (key : GoString) (v : Json) :
    Except String Contact :=
  if sToLower key = ("nom".toList) then
    match v with
    | Json.str s => Except.ok ⟨s, c.prenom, c.tel⟩
    | Json.null => Except.ok c
    | _ => Except.error "cannot unmarshal value into field Nom"
  else if sToLower key = ("prenom".toList) then
    match v with
    | Json.str s => Except.ok ⟨c.nom, s, c.tel⟩
    | Json.null => Except.ok c
    | _ => Except.error "cannot unmarshal value into field Prenom"
  else if sToLower key = ("tel".toList) then
    match v with
    | Json.str s => Except.ok ⟨c.nom, c.prenom, s⟩
    | Json.null => Except.ok c
    | _ => Except.error "cannot unmarshal value into field Tel"
  else Except.ok c

/-- Models `json.Unmarshal` into a `Contact`: must be a JSON object;
entries are applied in order onto the zero value. -/
def unmarshalContact (j : Json) : Except String Contact :=
  match j with
  | Json.obj fields =>
    fields.foldlM (fun c kv => setContactField c kv.1 kv.2) ⟨[], [], []⟩
  | Json.null => Except.ok ⟨[], [], []⟩
  | _ => Except.error "cannot unmarshal value into Contact"

/-- Models `json.Unmarshal` into an `Annuaire` whose `Contacts` slice
starts empty (as `chargerAnnuaire` initialises it): a `contacts` key
replaces the slice with the decoded array, unknown keys are ignored. -/
def unmarshalAnnuaire (j : Json) : Except String Annuaire :=
  match j with
  | Json.obj fields =>
    fields.foldlM (fun a kv =>
      if sToLower kv.1 = ("contacts".toList) then
        match kv.2 with
        | Json.arr xs =>
          Except.map Annuaire.mk (xs.mapM unmarshalContact)
        | Json.null => Except.ok a
        | _ => Except.error "cannot unmarshal value into field Contacts"
      else Except.ok a) ⟨[]⟩
  | Json.null => Except.ok ⟨[]⟩
  | _ => Except.error "cannot unmarshal value into Annuaire"

/-- Models `chargerAnnuaire`.  The argument stands for the state of the
snapshot file `annuaire.json`: `none` when the file does not exist,
`some j` when it exists and its bytes parse to the document `j`.  A
missing file yields the empty directory; otherwise the document is
decoded.  (I/O read failures and byte-level JSON syntax errors, which
`chargerAnnuaire` also surfaces as errors, are below this model.) -/
def chargerAnnuaire (file : Option Json) : Except String Annuaire :=
  match file with
  | none => Except.ok ⟨[]⟩
  | some j => unmarshalAnnuaire j

/-- Models `sauvegarderAnnuaire`: the document written to the snapshot
file is the serialisation of the whole directory. -/
def sauvegarderAnnuaire (a : Annuaire) : Json :=
  marshalAnnuaire a

/-- Uniqueness invariant of the specification: no two contacts have
case-insensitively equal names. -/
def annuaireSansDoublon (a : Annuaire) : Prop :=
  (a.contacts.map (fun c => sToLower c.nom)).Nodup

instance (a : Annuaire) : Decidable (annuaireSansDoublon a) :=
  List.nodupDecidable _

/-- All spec invariants of a well-formed directory together: pairwise
distinct lowered names, non-empty `nom` and `tel`, and all three fields
free of surrounding whitespace. -/
def annuaireBienForme (a : Annuaire) : Prop :=
  annuaireSansDoublon a ∧
  ∀ c ∈ a.contacts, c.nom ≠ [] ∧ c.tel ≠ [] ∧
    trimSpace c.nom = c.nom ∧ trimSpace c.prenom = c.prenom ∧
    trimSpace c.tel = c.tel

instance (a : Annuaire) : Decidable (annuaireBienForme a) := by
  unfold annuaireBienForme
  exact instDecidableAnd

/-! ### Helper lemmas -/

lemma charOfNat_toNat (n : Nat) (h1 : 97 ≤ n) (h2 : n ≤ 122) :
    (Char.ofNat n).toNat = n := by
  unfold Char.ofNat
  split
  · rfl
  · rename_i h
    exact absurd (Or.inl (by omega)) h

lemma toNat_toLower (c : Char) :
    (Char.toLower c).toNat =
      if 65 ≤ c.toNat ∧ c.toNat ≤ 90 then c.toNat + 32 else c.toNat := by
  by_cases h : 65 ≤ c.toNat ∧ c.toNat ≤ 90
  · simp only [Char.toLower, ge_iff_le, if_pos h]
    exact charOfNat_toNat _ (by omega) (by omega)
  · simp only [Char.toLower, ge_iff_le, if_neg h]

lemma isSpace_toLower (c : Char) : isSpace (Char.toLower c) = isSpace c := by
  simp only [isSpace, toNat_toLower, decide_eq_decide]
  by_cases h : 65 ≤ c.toNat ∧ c.toNat ≤ 90
  · rw [if_pos h]
    omega
  · rw [if_neg h]

lemma trimSpace_sublist (s : GoString) : List.Sublist (trimSpace s) s := by
  have h1 : List.Sublist (List.dropWhile isSpace s) s := List.dropWhile_sublist isSpace
  have h2 : List.Sublist
      (List.dropWhile isSpace (List.dropWhile isSpace s).reverse)
      (List.dropWhile isSpace s).reverse := List.dropWhile_sublist isSpace
  have h3 := h2.reverse
  rw [List.reverse_reverse] at h3
  exact h3.trans h1

lemma trimSpace_sToLower (s : GoString) :
    trimSpace (sToLower s) = sToLower (trimSpace s) := by
  have hcomp : (isSpace ∘ Char.toLower) = isSpace := funext isSpace_toLower
  unfold trimSpace sToLower
  rw [List.dropWhile_map, hcomp, ← List.map_reverse, List.dropWhile_map, hcomp,
    ← List.map_reverse]

lemma sToLower_ne_of_trim (c q : GoString) (hc : trimSpace c = c)
    (hq : trimSpace q ≠ q) : sToLower c ≠ sToLower q := by
  intro h
  have h1 : trimSpace (sToLower c) = trimSpace (sToLower q) := by rw [h]
  rw [trimSpace_sToLower, trimSpace_sToLower, hc] at h1
  have hlen1 : c.length = (trimSpace q).length := by
    have := congrArg List.length h1
    simpa [sToLower] using this
  have hlen2 : c.length = q.length := by
    have := congrArg List.length h
    simpa [sToLower] using this
  exact hq ((trimSpace_sublist q).eq_of_length (by omega))

lemma removeFirst_eq_none (p : Contact → Bool) (l : List Contact)
    (h : ∀ x ∈ l, p x = false) : removeFirst p l = none := by
  induction l with
  | nil => rfl
  | cons c rest ih =>
    have hc := h c (List.mem_cons_self c rest)
    simp only [removeFirst, hc, Bool.false_eq_true, if_false,
      ih (fun x hx => h x (List.mem_cons_of_mem c hx)), Option.map_none']

lemma removeFirst_append (p : Contact → Bool) (l1 l2 : List Contact)
    (c : Contact) (h1 : ∀ x ∈ l1, p x = false) (hc : p c = true) :
    removeFirst p (l1 ++ c :: l2) = some (l1 ++ l2) := by
  induction l1 with
  | nil => simp [removeFirst, hc]
  | cons d rest ih =>
    have hd := h1 d (List.mem_cons_self d rest)
    simp only [List.cons_append, removeFirst, hd, Bool.false_eq_true, if_false,
      List.append_eq, ih (fun x hx => h1 x (List.mem_cons_of_mem d hx)),
      Option.map_some']

lemma updateFirst_eq_none (p : Contact → Bool) (f : Contact → Contact)
    (l : List Contact) (h : ∀ x ∈ l, p x = false) :
    updateFirst p f l = none := by
  induction l with
  | nil => rfl
  | cons c rest ih =>
    have hc := h c (List.mem_cons_self c rest)
    simp only [updateFirst, hc, Bool.false_eq_true, if_false,
      ih (fun x hx => h x (List.mem_cons_of_mem c hx)), Option.map_none']

lemma updateFirst_append (p : Contact → Bool) (f : Contact → Contact)
    (l1 l2 : List Contact) (c : Contact) (h1 : ∀ x ∈ l1, p x = false)
    (hc : p c = true) :
    updateFirst p f (l1 ++ c :: l2) = some (l1 ++ f c :: l2) := by
  induction l1 with
  | nil => simp [updateFirst, hc]
  | cons d rest ih =>
    have hd := h1 d (List.mem_cons_self d rest)
    simp only [List.cons_append, updateFirst, hd, Bool.false_eq_true, if_false,
      List.append_eq, ih (fun x hx => h1 x (List.mem_cons_of_mem d hx)),
      Option.map_some']

lemma unmarshalContact_marshalContact (c : Contact) :
    unmarshalContact (marshalContact c) = Except.ok c := by
  cases c
  rfl

lemma mapM_unmarshal_marshal (l : List Contact) :
    List.mapM unmarshalContact (l.map marshalContact) = Except.ok l := by
  induction l with
  | nil => rfl
  | cons c rest ih =>
    rw [List.map_cons, List.mapM_cons, unmarshalContact_marshalContact, ih]
    rfl

/-! ### Sample data shared by several witnesses -/

/-- Sample contact used by the witnesses, matching the one of the spec
examples. -/
def contactDupont : Contact :=
  ⟨"Dupont".toList, "Jean".toList, "0123456789".toList⟩

/-- Sample one-contact directory used by the witnesses. -/
def annuaireDupont : Annuaire := ⟨[contactDupont]⟩

/-! ### Claims -/

/-- C1 (code bug).  The claim says that starting from a directory with no
two case-insensitively equal names, no sequence of add, delete and update
operations ever produces two contacts with case-insensitively equal
names.  The code violates it: `ajouterContact` runs its duplicate check
on the untrimmed argument but stores the trimmed name, so adding
`"Dupont "` to a well-formed directory containing `"Dupont"` succeeds and
leaves two contacts whose names are equal verbatim, not merely
case-insensitively. -/
theorem ajouterContact_casse_unicite :
    annuaireSansDoublon ⟨[⟨"Dupont".toList, "Jean".toList, "0123456789".toList⟩]⟩ ∧
    (ajouterContact ⟨[⟨"Dupont".toList, "Jean".toList, "0123456789".toList⟩]⟩
        ("Dupont ".toList) ("Marie".toList) ("06".toList)).1 = none ∧
    ¬ annuaireSansDoublon
      (ajouterContact ⟨[⟨"Dupont".toList, "Jean".toList, "0123456789".toList⟩]⟩
        ("Dupont ".toList) ("Marie".toList) ("06".toList)).2 := by
  decide

/-- C2 (code bug).  The claim says that a successful add leaves a contact
whose `nom` and `tel` are non-empty and carry no surrounding whitespace.
The code checks emptiness of the raw arguments and trims afterwards, so
whitespace-only arguments pass both checks and the stored fields are the
empty string. -/
theorem ajouterContact_accepte_champs_blancs :
    (ajouterContact ⟨[]⟩ (" ".toList) ("Jean".toList) (" ".toList)).1 = none ∧
    (ajouterContact ⟨[]⟩ (" ".toList) ("Jean".toList) (" ".toList)).2 =
      ⟨[⟨[], "Jean".toList, []⟩]⟩ := by
  decide

/-- C3 (confirmed).  Loading the document saved for any directory yields
that directory back: same contacts, same order, same field values. -/
theorem sauvegarder_puis_charger (a : Annuaire) :
    chargerAnnuaire (some (sauvegarderAnnuaire a)) = Except.ok a := by
  cases a with
  | mk l =>
    show unmarshalAnnuaire (marshalAnnuaire ⟨l⟩) = Except.ok ⟨l⟩
    unfold marshalAnnuaire unmarshalAnnuaire
    simp only [List.foldlM_cons, List.foldlM_nil]
    rw [if_pos (by rfl), mapM_unmarshal_marshal]
    rfl

/-- C4 counterexample.  The claim states that no argument to update sets
`prenom` or `tel` to the empty string; but a whitespace-only `nouveauTel`
is non-empty, so the code replaces `tel` with its trimmed value, which is
empty. -/
theorem modifierContact_peut_vider_un_champ :
    modifierContact ⟨[⟨"Dupont".toList, "Jean".toList, "0123456789".toList⟩]⟩
        ("Dupont".toList) [] (" ".toList) =
      (none, ⟨[⟨"Dupont".toList, "Jean".toList, []⟩]⟩) := by
  decide

/-- C4 (corrected).  Update on the first contact matching the name
case-insensitively leaves a field unchanged exactly when its argument is
the empty string, and otherwise replaces it with the trimmed argument —
which is the empty string when the argument was non-empty but
whitespace-only, so fields can be cleared after all.  The name itself is
never modified. -/
theorem modifierContact_semantique_partielle (l1 l2 : List Contact)
    (c : Contact) (nom np nt : GoString)
    (h1 : ∀ d ∈ l1, sToLower d.nom ≠ sToLower nom)
    (hc : sToLower c.nom = sToLower nom) :
    modifierContact ⟨l1 ++ c :: l2⟩ nom np nt =
      (none, ⟨l1 ++ ⟨c.nom,
        if np = [] then c.prenom else trimSpace np,
        if nt = [] then c.tel else trimSpace nt⟩ :: l2⟩) := by
  unfold modifierContact
  rw [updateFirst_append _ _ l1 l2 c
    (fun x hx => beq_eq_false_iff_ne.mpr (h1 x hx)) (by simp [hc])]

/-- Witness for C4: the update example of the spec, with an empty
given-name argument and a fresh phone number. -/
theorem modifierContact_semantique_partielle_witness :
    modifierContact annuaireDupont ("Dupont".toList) [] ("0987654321".toList) =
      (none, ⟨[⟨"Dupont".toList, "Jean".toList, "0987654321".toList⟩]⟩) :=
  (modifierContact_semantique_partielle [] [] contactDupont
    ("Dupont".toList) [] ("0987654321".toList)
    (by decide) (by decide)).trans (by decide)

/-- C5 (confirmed).  Whenever some contact of the directory matches the
argument name case-insensitively, add fails with the duplicate error and
leaves the directory unchanged; since this holds even when `tel` is
empty, the duplicate check precedes the emptiness validation. -/
theorem ajouterContact_refuse_doublon (a : Annuaire)
    (nom prenom tel : GoString) (c : Contact)
    (hc : c ∈ a.contacts) (hm : sToLower c.nom = sToLower nom) :
    ajouterContact a nom prenom tel = (some (OpError.duplicate nom), a) := by
  have hs : (rechercherContact a nom).isSome = true :=
    List.find?_isSome.mpr ⟨c, hc, by simp [hm]⟩
  unfold ajouterContact
  cases h : rechercherContact a nom with
  | none => rw [h] at hs; simp at hs
  | some d => rfl

/-- Witness for C5: adding `"dupont"` to a directory containing
`"Dupont"` fails with the duplicate error even though the phone argument
is empty, so the duplicate check comes before validation. -/
theorem ajouterContact_refuse_doublon_witness :
    ajouterContact annuaireDupont ("dupont".toList) [] [] =
      (some (OpError.duplicate ("dupont".toList)), annuaireDupont) :=
  ajouterContact_refuse_doublon annuaireDupont ("dupont".toList) [] []
    contactDupont (by decide) (by decide)

/-- C6 (confirmed).  Delete removes exactly the first contact whose name
matches the argument case-insensitively, keeping every other contact in
its relative order, and fails with the not-found error, leaving the
directory unchanged, when no contact matches. -/
theorem supprimerContact_premier_correspondant :
    (∀ (l1 l2 : List Contact) (c : Contact) (nom : GoString),
        (∀ d ∈ l1, sToLower d.nom ≠ sToLower nom) →
        sToLower c.nom = sToLower nom →
        supprimerContact ⟨l1 ++ c :: l2⟩ nom = (none, ⟨l1 ++ l2⟩)) ∧
    (∀ (l : List Contact) (nom : GoString),
        (∀ d ∈ l, sToLower d.nom ≠ sToLower nom) →
        supprimerContact ⟨l⟩ nom = (some (OpError.introuvable nom), ⟨l⟩)) := by
  constructor
  · intro l1 l2 c nom h1 hc
    unfold supprimerContact
    rw [removeFirst_append _ l1 l2 c
      (fun x hx => beq_eq_false_iff_ne.mpr (h1 x hx)) (by simp [hc])]
  · intro l nom h
    unfold supprimerContact
    rw [removeFirst_eq_none _ l (fun x hx => beq_eq_false_iff_ne.mpr (h x hx))]

/-- Witness for C6: the delete examples of the spec, deleting
`"MARTIN"` from `[Alice, Martin, Claire]` and deleting `"Inconnu"` from a
directory without it. -/
theorem supprimerContact_premier_correspondant_witness :
    supprimerContact ⟨[⟨"Alice".toList, [], "1".toList⟩,
        ⟨"Martin".toList, [], "2".toList⟩,
        ⟨"Claire".toList, [], "3".toList⟩]⟩ ("MARTIN".toList) =
      (none, ⟨[⟨"Alice".toList, [], "1".toList⟩,
        ⟨"Claire".toList, [], "3".toList⟩]⟩) ∧
    supprimerContact ⟨[⟨"Alice".toList, [], "1".toList⟩]⟩ ("Inconnu".toList) =
      (some (OpError.introuvable ("Inconnu".toList)),
       ⟨[⟨"Alice".toList, [], "1".toList⟩]⟩) :=
  ⟨supprimerContact_premier_correspondant.1
      [⟨"Alice".toList, [], "1".toList⟩] [⟨"Claire".toList, [], "3".toList⟩]
      ⟨"Martin".toList, [], "2".toList⟩ ("MARTIN".toList)
      (by decide) (by decide),
   supprimerContact_premier_correspondant.2
      [⟨"Alice".toList, [], "1".toList⟩] ("Inconnu".toList) (by decide)⟩

/-- C7 (confirmed).  Whenever add, delete or update returns an error, the
directory it leaves in memory is exactly the one it was given. -/
theorem operations_atomiques_en_erreur (a : Annuaire)
    (nom prenom tel np nt : GoString) :
    ((ajouterContact a nom prenom tel).1.isSome →
      (ajouterContact a nom prenom tel).2 = a) ∧
    ((supprimerContact a nom).1.isSome → (supprimerContact a nom).2 = a) ∧
    ((modifierContact a nom np nt).1.isSome →
      (modifierContact a nom np nt).2 = a) := by
  refine ⟨?_, ?_, ?_⟩
  · unfold ajouterContact
    split
    · simp
    · split
      · simp
      · split
        · simp
        · simp
  · unfold supprimerContact
    split
    · simp
    · simp
  · unfold modifierContact
    split
    · simp
    · simp

/-- Witness for C7: a duplicate add, a delete of an absent name and an
update of an absent name all fail and leave the directory unchanged. -/
theorem operations_atomiques_en_erreur_witness :
    (ajouterContact annuaireDupont ("dupont".toList) [] ("06".toList)).2 =
      annuaireDupont ∧
    (supprimerContact annuaireDupont ("Inconnu".toList)).2 = annuaireDupont ∧
    (modifierContact annuaireDupont ("Inconnu".toList)
      ("Marie".toList) []).2 = annuaireDupont :=
  ⟨(operations_atomiques_en_erreur annuaireDupont ("dupont".toList) []
      ("06".toList) [] []).1 (by decide),
   (operations_atomiques_en_erreur annuaireDupont ("Inconnu".toList) [] []
      [] []).2.1 (by decide),
   (operations_atomiques_en_erreur annuaireDupont ("Inconnu".toList) [] []
      ("Marie".toList) []).2.2 (by decide)⟩

/-- C8 (confirmed).  Loading when the snapshot file does not exist yields
the empty directory and no error. -/
theorem chargerAnnuaire_fichier_absent :
    chargerAnnuaire none = Except.ok ⟨[]⟩ :=
  rfl

/-- C9 (confirmed).  The lookups compare the query lowercased but never
trimmed, so when every stored name carries no surrounding whitespace, any
query that does carry some (in particular one differing from a stored
name only by leading or trailing whitespace) matches no contact: find
reports not found, delete and update fail with the not-found error and
leave the directory unchanged. -/
theorem recherches_sans_nettoyage (a : Annuaire) (q np nt : GoString)
    (hstored : ∀ c ∈ a.contacts, trimSpace c.nom = c.nom)
    (hq : trimSpace q ≠ q) :
    rechercherContact a q = none ∧
    supprimerContact a q = (some (OpError.introuvable q), a) ∧
    modifierContact a q np nt = (some (OpError.introuvable q), a) := by
  have hp : ∀ c ∈ a.contacts, (sToLower c.nom == sToLower q) = false :=
    fun c hc => beq_eq_false_iff_ne.mpr
      (sToLower_ne_of_trim _ _ (hstored c hc) hq)
  refine ⟨?_, ?_, ?_⟩
  · exact List.find?_eq_none.mpr (fun x hx => by simp [hp x hx])
  · unfold supprimerContact
    rw [removeFirst_eq_none _ _ hp]
  · unfold modifierContact
    rw [updateFirst_eq_none _ _ _ hp]

/-- Witness for C9: the query `" Dupont"` differs from the stored
`"Dupont"` only by a leading space and matches nothing. -/
theorem recherches_sans_nettoyage_witness :
    rechercherContact annuaireDupont (" Dupont".toList) = none ∧
    supprimerContact annuaireDupont (" Dupont".toList) =
      (some (OpError.introuvable (" Dupont".toList)), annuaireDupont) ∧
    modifierContact annuaireDupont (" Dupont".toList) [] [] =
      (some (OpError.introuvable (" Dupont".toList)), annuaireDupont) :=
  recherches_sans_nettoyage annuaireDupont (" Dupont".toList) [] []
    (by decide) (by decide)

/-- Snapshot document whose contacts violate every invariant at once:
`"Dupont"` and `"DUPONT"` are case-insensitively equal, the first contact
has an empty `tel`, and the third name carries surrounding whitespace. -/
def documentInvalide : Json :=
  Json.obj [(("contacts".toList), Json.arr
    [Json.obj [(("nom".toList), Json.str ("Dupont".toList)),
               (("prenom".toList), Json.str []),
               (("tel".toList), Json.str [])],
     Json.obj [(("nom".toList), Json.str ("DUPONT".toList)),
               (("prenom".toList), Json.str ("Jean".toList)),
               (("tel".toList), Json.str ("06".toList))],
     Json.obj [(("nom".toList), Json.str (" Marie ".toList)),
               (("prenom".toList), Json.str []),
               (("tel".toList), Json.str ("07".toList))]])]

/-- The directory recorded in `documentInvalide`. -/
def annuaireInvalide : Annuaire :=
  ⟨[⟨"Dupont".toList, [], []⟩,
    ⟨"DUPONT".toList, "Jean".toList, "06".toList⟩,
    ⟨" Marie ".toList, [], "07".toList⟩]⟩

/-- C10 (confirmed).  Load is decoding and nothing else: whatever
directory the snapshot document decodes to — here one violating the
well-formedness invariants — load returns it unchanged, with no
validation step. -/
theorem chargerAnnuaire_sans_validation (j : Json) (a : Annuaire)
    (hparse : unmarshalAnnuaire j = Except.ok a)
    (_hinvalide : ¬ annuaireBienForme a) :
    chargerAnnuaire (some j) = Except.ok a :=
  hparse

/-- Witness for C10: a snapshot recording duplicate names, an empty phone
and an untrimmed name loads without error and verbatim. -/
theorem chargerAnnuaire_sans_validation_witness :
    unmarshalAnnuaire documentInvalide = Except.ok annuaireInvalide ∧
    ¬ annuaireBienForme annuaireInvalide ∧
    chargerAnnuaire (some documentInvalide) = Except.ok annuaireInvalide :=
  ⟨by rfl, by decide,
   chargerAnnuaire_sans_validation documentInvalide annuaireInvalide
     (by rfl) (by decide)⟩
